import Mathlib

/-!
Verification of the request-lifecycle middleware and error-classification
pipeline of the finding-api HTTP server (src/lib/server.js).

The embedding follows the JavaScript source closely:
- `routeRegistrations` embeds `_setupExpressRoutes`: each `expressApp.use`
  call becomes a pair of the path and the ordered list of middleware names
  passed to it (routers and the authorization gate are black-box external
  collaborators, identified here by their require-name).
- `statusCodeByErrorName`, `errorHandler` embed `_setupErrorHandler` and the
  static `Server.statusCodeByErrorName` table. JavaScript truthiness of the
  `err.statusCode ||` and `... || 500` tests is made explicit (`jsTruthyNum`):
  a number is truthy exactly when it is nonzero. Property access on a
  possibly-undefined `req.logger` is modelled by `Except`: the non-auth
  branch dereferences `req.logger` and would raise a TypeError when the
  logger is absent, while the 401 branch never touches it.
- `createReqLogger`, `runRequest` embed the lifecycle middleware from
  `_setupExpressMiddleware`: ingress logging, child-logger construction from
  the x-request-id header (truthiness of the header string made explicit:
  an empty string is falsy), and registration of an on-finished hook that the
  runtime fires exactly once when the response stream finishes - on success,
  error-path completion, or client disconnect. Resource handler groups are
  external collaborators; their outcome is abstracted by `Outcome`.
-/

namespace FindingApi

/-- JavaScript truthiness of a possibly-undefined number field
(`undefined` and `0` are falsy). -/
def jsTruthyNum : Option Nat → Bool
  | none => false
  | some n => n ≠ 0

/-- The JavaScript expression `a || d` for a possibly-undefined number `a` and a literal
default `d`. -/
def jsNumOr (a : Option Nat) (d : Nat) : Nat :=
  match a with
  | none => d
  | some n => if n ≠ 0 then n else d

/-- JavaScript truthiness of a possibly-undefined string field
(`undefined` and the empty string are falsy). -/
def jsTruthyStr : Option String → Bool
  | none => false
  | some s => s ≠ ""

/-- An error object reaching the express error handler. `none` models an
`undefined` field. -/
structure JsError where
  name : Option String
  message : String
  statusCode : Option Nat
deriving DecidableEq, Repr

/-- The string `err.toString()` of an Error-like object, per `Error.prototype.toString`:
an undefined name prints as "Error"; an empty name yields the message alone;
an empty message yields the name alone. -/
def serializeError (e : JsError) : String :=
  let n := match e.name with
    | none => "Error"
    | some s => s
  if n = "" then e.message
  else if e.message = "" then n
  else n ++ ": " ++ e.message

/-- The table `Server.statusCodeByErrorName`, the static classification table
`{ ValidationError: 400, CastError: 400 }`, read at the key `err.name`
(an absent or unlisted name finds no entry). -/
def statusCodeByErrorName : Option String → Option Nat
  | some "ValidationError" => some 400
  | some "CastError" => some 400
  | _ => none

/-- The mutation line of the error handler:
`err.statusCode || (err.statusCode = Server.statusCodeByErrorName[err.name] || 500)`.
Returns the error as it stands after the line has executed. -/
def assignStatusCode (e : JsError) : JsError :=
  if jsTruthyNum e.statusCode then e
  else { e with statusCode := some (jsNumOr (statusCodeByErrorName e.name) 500) }

/-- Context of a child logger produced by `logger.child`. -/
structure LoggerCtx where
  requestId : Option String
deriving DecidableEq, Repr

inductive LogLevel
  | info
  | verbose
  | error
deriving DecidableEq, Repr

/-- Structured payload attached to a log entry. -/
inductive LogDetail
  | reqInfo (httpVersion method url : String) (headers : List (String × String))
  | resInfo (method url : String) (statusCode : Nat) (durationMs : Nat)
  | errObj (e : JsError)
  | msg (s : String)
deriving DecidableEq, Repr

structure LogEntry where
  level : LogLevel
  ctx : LoggerCtx
  message : String
  detail : LogDetail
deriving DecidableEq, Repr

/-- What `res.status(c).send(b)` writes back to the client. -/
structure ErrorResponse where
  status : Nat
  body : String
deriving DecidableEq, Repr

/-- Everything the error-handler middleware produced on one invocation:
the response written, the log entries emitted through `req.logger`, and the
error object as left after any in-place mutation. -/
structure HandlerResult where
  response : ErrorResponse
  logs : List LogEntry
  finalError : JsError
deriving DecidableEq, Repr

/-- The error-handler middleware attached by `_setupErrorHandler`.
`logger` is `req.logger`, which is `undefined` when the lifecycle middleware
has not run; dereferencing it then raises a TypeError, modelled by
`Except.error`. The 401 branch returns before touching `req.logger`. -/
def errorHandler (e : JsError) (logger : Option LoggerCtx) :
    Except String HandlerResult :=
  if e.name = some "UnauthorizedError" then
    .ok { response := { status := 401, body := e.message }
          logs := []
          finalError := e }
  else
    let e2 := assignStatusCode e
    match logger with
    | none => .error "TypeError: cannot read properties of undefined"
    | some lg =>
      .ok { response := { status := jsNumOr e2.statusCode 500
                          body := serializeError e2 }
            logs := [ { level := .error, ctx := lg
                        message := serializeError e2, detail := .errObj e2 }
                    , { level := .verbose, ctx := lg
                        message := "Responding to client"
                        detail := .msg (serializeError e2) } ]
            finalError := e2 }

/-- Which branch of the error handler classifies a given error; determined
by the error name and the truthiness of its explicit status code alone. -/
inductive Classification
  | unauthorized
  | explicitStatus
  | mappedKind
  | defaultCase
deriving DecidableEq, Repr

/-- The classification branch the error handler takes for an error. -/
def classifyError (e : JsError) : Classification :=
  if e.name = some "UnauthorizedError" then .unauthorized
  else if jsTruthyNum e.statusCode then .explicitStatus
  else match statusCodeByErrorName e.name with
    | some _ => .mappedKind
    | none => .defaultCase

/-! ### Route table (`_setupExpressRoutes`) -/

/-- The express route registrations, in source order: each entry is the path
passed to `expressApp.use` together with the ordered list of middleware
handed to it (the `authorization` gate where present, then the router). -/
def routeRegistrations : List (String × List String) :=
  [ ("/", ["rootRouter"])
  , ("/auth", ["authRouter"])
  , ("/stats", ["authorization", "statsRouter"])
  , ("/person", ["personRouter"])
  , ("/notification", ["notificationRouter"])
  , ("/person-request", ["personRequestRouter"])
  , ("/contributor", ["contributorRouter"])
  , ("/user", ["authorization", "userRouter"])
  , ("/role", ["authorization", "roleRouter"])
  , ("/permission", ["authorization", "permissionRouter"])
  , ("/organization", ["authorization", "organizationRouter"]) ]

/-- The authorization gate stands immediately before the handler group:
the middleware list is exactly the gate followed by the router. -/
def authGateBeforeHandler : List String → Bool
  | ["authorization", _] => true
  | _ => false

/-- The registration mentions the authorization gate anywhere at all. -/
def mentionsAuthGate (ms : List String) : Bool :=
  ms.contains "authorization"

/-- The guarded paths named by the policy table. -/
def guardedPaths : List String :=
  ["/stats", "/user", "/role", "/permission", "/organization"]

/-- The unguarded paths named by the policy table. -/
def unguardedPaths : List String :=
  ["/", "/auth", "/person", "/notification", "/person-request", "/contributor"]

/-! ### Request lifecycle middleware (`createReqLogger` in
`_setupExpressMiddleware`) and a per-request execution model -/

/-- An inbound request as the middleware sees it. `startTime` and `logger`
are the fields `req._startTime` and `req.logger` the middleware attaches;
they start out `undefined`. -/
structure Req where
  httpVersion : String
  method : String
  url : String
  headers : List (String × String)
  startTime : Option Nat
  logger : Option LoggerCtx
deriving DecidableEq, Repr

/-- Case-exact lookup of a (lowercased-by-node) header name. -/
def headerLookup (hs : List (String × String)) (k : String) : Option String :=
  match hs.find? (fun p => p.1 = k) with
  | some p => some p.2
  | none => none

/-- The call `this.logger.child(req.headers[x-request-id] ? { requestId: ... } : {})`:
the child context carries the correlation id exactly when the header value is
truthy (present and nonempty). -/
def childLoggerCtx (hs : List (String × String)) : LoggerCtx :=
  if jsTruthyStr (headerLookup hs "x-request-id") then
    { requestId := headerLookup hs "x-request-id" }
  else
    { requestId := none }

/-- The state an `onFinished` callback closes over: the request fields and
scoped logger it references, and the captured start time. -/
structure EgressHook where
  ctx : LoggerCtx
  httpVersion : String
  method : String
  url : String
  startTime : Nat
deriving DecidableEq, Repr

/-- The response object: its current status code and the completion hooks
registered on it via `onFinished`. -/
structure Res where
  statusCode : Nat
  hooks : List EgressHook
deriving DecidableEq, Repr

/-- A fresh express response: node defaults the status code to 200 and no
completion hook is registered yet. -/
def initialRes : Res := { statusCode := 200, hooks := [] }

/-- The ingress entry `req.logger.info(..Incoming request.., {...})`. -/
def ingressEntry (req : Req) : LogEntry :=
  { level := .info
    ctx := childLoggerCtx req.headers
    message := "Incoming request"
    detail := .reqInfo req.httpVersion req.method req.url req.headers }

/-- The `createReqLogger` middleware: stamps `req._startTime`, attaches the
scoped child logger, emits the ingress entry, and registers one egress hook
on the response. Returns the updated request and response objects together
with the entries logged during the call. -/
def createReqLogger (now : Nat) (req : Req) (res : Res) :
    Req × Res × List LogEntry :=
  let ctx := childLoggerCtx req.headers
  let req2 := { req with startTime := some now, logger := some ctx }
  let hook : EgressHook :=
    { ctx := ctx, httpVersion := req.httpVersion
      method := req.method, url := req.url, startTime := now }
  (req2, { res with hooks := res.hooks ++ [hook] }, [ingressEntry req])

/-- The egress entry the hook emits when the response finishes:
`req.logger.info(..Outgoing response.., {...})` with the final status code
and the pretty-printed elapsed time (kept as milliseconds here). -/
def egressEntry (finish : Nat) (res : Res) (h : EgressHook) : LogEntry :=
  { level := .info
    ctx := h.ctx
    message := "Outgoing response"
    detail := .resInfo h.method h.url res.statusCode (finish - h.startTime) }

/-- How a request terminates after dispatch. Handler groups are external
collaborators: `success` abstracts a handler writing a normal response,
`failure` a handler or gate passing an error to the classifier, and
`disconnect` a client that drops before any response is written. -/
inductive Outcome
  | success (status : Nat) (body : String)
  | failure (e : JsError)
  | disconnect
deriving DecidableEq, Repr

/-- One observable event of a request execution: a log entry being emitted
or a response being written to the client. -/
inductive Event
  | log (entry : LogEntry)
  | response (status : Nat) (body : String)
deriving DecidableEq, Repr

/-- The full event trace of one request through the pipeline: the lifecycle
middleware runs first (ingress log, hook registration), dispatch then ends
in the given outcome (a successful handler response, the error classifier,
or a disconnect), and when the response stream finishes the runtime fires
each registered completion hook exactly once - the `on-finished` contract,
which holds on success, error completion and client disconnect alike. -/
def runRequest (now finish : Nat) (req : Req) (outcome : Outcome) :
    List Event :=
  let step := createReqLogger now req initialRes
  let req2 := step.1
  let res2 := step.2.1
  let ingressLogs := step.2.2
  let afterDispatch : Res × List Event :=
    match outcome with
    | .success s b => ({ res2 with statusCode := s }, [.response s b])
    | .disconnect => (res2, [])
    | .failure e =>
      match errorHandler e req2.logger with
      | .ok r =>
        ({ res2 with statusCode := r.response.status },
         r.logs.map .log ++ [.response r.response.status r.response.body])
      | .error _ => (res2, [])
  let resFinal := afterDispatch.1
  ingressLogs.map .log
    ++ afterDispatch.2
    ++ resFinal.hooks.map (fun h => .log (egressEntry finish resFinal h))

/-- An event is the structured ingress log entry (recognised by its
request-information payload). -/
def isIngressEvt : Event → Bool
  | .log { detail := .reqInfo _ _ _ _, .. } => true
  | _ => false

/-- An event is the structured egress log entry (recognised by its
response-information payload). -/
def isEgressEvt : Event → Bool
  | .log { detail := .resInfo _ _ _ _, .. } => true
  | _ => false

/-- An event is a log entry at error severity. -/
def isErrorLogEvt : Event → Bool
  | .log { level := .error, .. } => true
  | _ => false

/-- An event is a response write to the client. -/
def isResponseEvt : Event → Bool
  | .response _ _ => true
  | .log _ => false

/-! ### Concrete sample inputs used to instantiate the theorems -/

/-- The rejection error the authorization gate produces for a request with
no credential. -/
def sampleUnauthorizedErr : JsError :=
  { name := some "UnauthorizedError", message := "No credential", statusCode := none }

/-- A validation failure raised by a handler, carrying no explicit status. -/
def sampleValidationErr : JsError :=
  { name := some "ValidationError", message := "bad body", statusCode := none }

/-- A failure of a kind the classification table does not list. -/
def sampleWeirdErr : JsError :=
  { name := some "WeirdError", message := "boom", statusCode := none }

/-- A request-scoped logger context with no correlation id. -/
def sampleCtx : LoggerCtx := { requestId := none }

/-- A concrete inbound request before any middleware has touched it. -/
def sampleReq : Req :=
  { httpVersion := "1.1", method := "GET", url := "/organization"
    headers := [], startTime := none, logger := none }

/-! ### Theorems -/

/-- Helper: on the authorization-failure branch the handler returns 401 with
the raw message, no logs, and the error untouched, whatever `req.logger` is. -/
theorem errorHandler_unauthorized_eq (e : JsError) (lg : Option LoggerCtx)
    (h : e.name = some "UnauthorizedError") :
    errorHandler e lg =
      .ok { response := { status := 401, body := e.message }
            logs := [], finalError := e } := by
  simp [errorHandler, h]

/-- Helper: on the non-authorization branch with a logger attached, the
handler succeeds and returns the mutated error, its serialized form as the
body, the two log entries, and the computed status. -/
theorem errorHandler_ok_of_not_unauthorized (e : JsError) (lg : LoggerCtx)
    (hname : e.name ≠ some "UnauthorizedError") :
    errorHandler e (some lg) =
      .ok { response := { status := jsNumOr (assignStatusCode e).statusCode 500
                          body := serializeError (assignStatusCode e) }
            logs := [ { level := .error, ctx := lg
                        message := serializeError (assignStatusCode e)
                        detail := .errObj (assignStatusCode e) }
                    , { level := .verbose, ctx := lg
                        message := "Responding to client"
                        detail := .msg (serializeError (assignStatusCode e)) } ]
            finalError := assignStatusCode e } := by
  simp [errorHandler, hname]

/-- C1: in the route table, the authorization gate is inserted immediately
before the handler group exactly for the paths /stats, /user, /role,
/permission, /organization, and each of the paths /, /auth, /person,
/notification, /person-request, /contributor is registered with no
authorization middleware at all. -/
theorem c1_route_guarding :
    (∀ p ∈ routeRegistrations,
       (authGateBeforeHandler p.2 = true ↔ p.1 ∈ guardedPaths))
    ∧ (∀ q ∈ unguardedPaths,
       ∃ p ∈ routeRegistrations, p.1 = q ∧ mentionsAuthGate p.2 = false) := by
  decide

/-- Instantiation of the route-guarding theorem at the /stats registration
and at the /auth path. -/
theorem c1_route_guarding_witness :
    (authGateBeforeHandler ["authorization", "statsRouter"] = true
       ↔ "/stats" ∈ guardedPaths)
    ∧ ∃ p ∈ routeRegistrations, p.1 = "/auth" ∧ mentionsAuthGate p.2 = false :=
  ⟨c1_route_guarding.1 ("/stats", ["authorization", "statsRouter"]) (by decide),
   c1_route_guarding.2 "/auth" (by decide)⟩

/-- C2: on an error whose name is UnauthorizedError the handler responds
with status 401 and the raw error message as the body, emits no log entry,
applies no generic serialization, leaves the error unchanged, and succeeds
for every value of `req.logger`, including an absent one. -/
theorem c2_unauthorized_path (e : JsError) (lg : Option LoggerCtx)
    (h : e.name = some "UnauthorizedError") :
    errorHandler e lg =
      .ok { response := { status := 401, body := e.message }
            logs := [], finalError := e } :=
  errorHandler_unauthorized_eq e lg h

/-- Instantiation of the 401-path theorem at a concrete rejection error and
an absent request-scoped logger. -/
theorem c2_unauthorized_path_witness :
    errorHandler sampleUnauthorizedErr none =
      .ok { response := { status := 401, body := "No credential" }
            logs := [], finalError := sampleUnauthorizedErr } :=
  c2_unauthorized_path sampleUnauthorizedErr none rfl

/-- C3: for a non-authorization error the response status is chosen with
this precedence: a truthy explicit statusCode is used verbatim; otherwise
the name is looked up in the static table; otherwise 500. (JavaScript
truthiness: a statusCode of 0, which is not an HTTP status code, counts as
absent in the source.) -/
theorem c3_status_precedence (e : JsError) (lg : LoggerCtx)
    (hname : e.name ≠ some "UnauthorizedError") :
    ∃ r, errorHandler e (some lg) = .ok r
      ∧ (∀ c, e.statusCode = some c → c ≠ 0 → r.response.status = c)
      ∧ (e.statusCode = none →
          ∀ c, statusCodeByErrorName e.name = some c → c ≠ 0 →
            r.response.status = c)
      ∧ (e.statusCode = none → statusCodeByErrorName e.name = none →
          r.response.status = 500) := by
  refine ⟨_, errorHandler_ok_of_not_unauthorized e lg hname, ?_, ?_, ?_⟩
  · intro c hc hc0
    simp [assignStatusCode, jsTruthyNum, jsNumOr, hc, hc0]
  · intro hn c hc hc0
    simp [assignStatusCode, jsTruthyNum, jsNumOr, hn, hc, hc0]
  · intro hn hc
    simp [assignStatusCode, jsTruthyNum, jsNumOr, hn, hc]

/-- Instantiation of the precedence theorem at a CastError with no explicit
status code. -/
theorem c3_status_precedence_witness :
    ∃ r, errorHandler { name := some "CastError", message := "nope"
                        statusCode := none } (some sampleCtx) = .ok r
      ∧ (∀ c, (none : Option Nat) = some c → c ≠ 0 → r.response.status = c)
      ∧ ((none : Option Nat) = none →
          ∀ c, statusCodeByErrorName (some "CastError") = some c → c ≠ 0 →
            r.response.status = c)
      ∧ ((none : Option Nat) = none →
          statusCodeByErrorName (some "CastError") = none →
          r.response.status = 500) :=
  c3_status_precedence
    { name := some "CastError", message := "nope", statusCode := none }
    sampleCtx (by decide)

/-- C4: with no explicit status code, a ValidationError yields exactly 400,
a CastError yields exactly 400, and any kind that is neither listed in the
table nor the UnauthorizedError special case yields exactly 500. -/
theorem c4_kind_status_codes (m : String) (lg : LoggerCtx) :
    (∃ r, errorHandler { name := some "ValidationError", message := m
                         statusCode := none } (some lg) = .ok r
        ∧ r.response.status = 400)
    ∧ (∃ r, errorHandler { name := some "CastError", message := m
                           statusCode := none } (some lg) = .ok r
        ∧ r.response.status = 400)
    ∧ (∀ n, n ≠ some "UnauthorizedError" → statusCodeByErrorName n = none →
        ∃ r, errorHandler { name := n, message := m
                            statusCode := none } (some lg) = .ok r
          ∧ r.response.status = 500) := by
  refine ⟨⟨_, errorHandler_ok_of_not_unauthorized _ lg (by simp), ?_⟩,
          ⟨_, errorHandler_ok_of_not_unauthorized _ lg (by simp), ?_⟩, ?_⟩
  · simp [assignStatusCode, jsTruthyNum, jsNumOr, statusCodeByErrorName]
  · simp [assignStatusCode, jsTruthyNum, jsNumOr, statusCodeByErrorName]
  · intro n hn hl
    refine ⟨_, errorHandler_ok_of_not_unauthorized _ lg hn, ?_⟩
    simp [assignStatusCode, jsTruthyNum, jsNumOr, hl]

/-- Instantiation of the kind-to-status theorem at message "bad body" and
the unlisted kind WeirdError. -/
theorem c4_kind_status_codes_witness :
    ∃ r, errorHandler { name := some "WeirdError", message := "bad body"
                        statusCode := none } (some sampleCtx) = .ok r
      ∧ r.response.status = 500 :=
  (c4_kind_status_codes "bad body" sampleCtx).2.2 (some "WeirdError")
    (by decide) (by decide)

/-- C6: with the request-scoped logger attached (as the lifecycle middleware
guarantees for every request), the classifier succeeds on every error - a
missing or unlisted error name never makes it throw - and when the name has
no table entry, is not the UnauthorizedError special case, and no truthy
explicit status code is present, the status resolves to the 500 default
while a response is still written. -/
theorem c6_no_crash_default_500 (e : JsError) (lg : LoggerCtx) :
    ∃ r, errorHandler e (some lg) = .ok r
      ∧ (e.name ≠ some "UnauthorizedError" →
          statusCodeByErrorName e.name = none →
          jsTruthyNum e.statusCode = false →
          r.response.status = 500) := by
  by_cases hu : e.name = some "UnauthorizedError"
  · exact ⟨_, errorHandler_unauthorized_eq e (some lg) hu, fun h => absurd hu h⟩
  · refine ⟨_, errorHandler_ok_of_not_unauthorized e lg hu, ?_⟩
    intro _ hl ht
    simp [assignStatusCode, jsNumOr, hl, ht]

/-- Instantiation of the no-crash theorem at an error whose name field is
absent entirely. -/
theorem c6_no_crash_default_500_witness :
    ∃ r, errorHandler { name := none, message := "boom", statusCode := none }
           (some sampleCtx) = .ok r
      ∧ ((none : Option String) ≠ some "UnauthorizedError" →
          statusCodeByErrorName none = none →
          jsTruthyNum none = false →
          r.response.status = 500) :=
  c6_no_crash_default_500
    { name := none, message := "boom", statusCode := none } sampleCtx

/-- C8: the classifier is stateless and deterministic - any two errors that
agree on their name and on the presence and value of an explicit status code
are assigned the same classification branch and the same response status,
whatever their other fields and whatever scoped logger is in effect. -/
theorem c8_classifier_deterministic (e1 e2 : JsError) (lg1 lg2 : LoggerCtx)
    (hn : e1.name = e2.name) (hs : e1.statusCode = e2.statusCode) :
    classifyError e1 = classifyError e2
    ∧ ∃ r1 r2, errorHandler e1 (some lg1) = .ok r1
        ∧ errorHandler e2 (some lg2) = .ok r2
        ∧ r1.response.status = r2.response.status := by
  by_cases hu : e1.name = some "UnauthorizedError"
  · have hu2 : e2.name = some "UnauthorizedError" := hn ▸ hu
    refine ⟨by simp [classifyError, hu, hu2],
      ⟨_, _, errorHandler_unauthorized_eq e1 (some lg1) hu,
        errorHandler_unauthorized_eq e2 (some lg2) hu2, rfl⟩⟩
  · have hu2 : e2.name ≠ some "UnauthorizedError" := by rw [← hn]; exact hu
    refine ⟨?_, ⟨_, _, errorHandler_ok_of_not_unauthorized e1 lg1 hu,
      errorHandler_ok_of_not_unauthorized e2 lg2 hu2, ?_⟩⟩
    · simp [classifyError, hu, hu2, hn, hs]
    · by_cases ht : jsTruthyNum e2.statusCode <;>
        simp [assignStatusCode, hn, hs, ht]

/-- Instantiation of the determinism theorem at two validation errors that
differ in message and logger context but agree on name and status code. -/
theorem c8_classifier_deterministic_witness :
    classifyError sampleValidationErr =
      classifyError { name := some "ValidationError", message := "other text"
                      statusCode := none }
    ∧ ∃ r1 r2,
        errorHandler sampleValidationErr (some sampleCtx) = .ok r1
        ∧ errorHandler { name := some "ValidationError", message := "other text"
                         statusCode := none }
            (some { requestId := some "abc" }) = .ok r2
        ∧ r1.response.status = r2.response.status :=
  c8_classifier_deterministic sampleValidationErr
    { name := some "ValidationError", message := "other text"
      statusCode := none }
    sampleCtx { requestId := some "abc" } rfl rfl

/-- C10: for a non-authorization error with no explicit status code the
classifier mutates the error object in place, setting its statusCode field
to the computed code before logging and responding: the error it logs and
leaves behind carries the assigned code (so it differs from the input), and
the response status equals that assigned code. -/
theorem c10_statusCode_mutation (e : JsError) (lg : LoggerCtx)
    (hname : e.name ≠ some "UnauthorizedError") (hsc : e.statusCode = none) :
    ∃ r, errorHandler e (some lg) = .ok r
      ∧ r.finalError = { e with statusCode := some (jsNumOr (statusCodeByErrorName e.name) 500) }
      ∧ r.finalError ≠ e
      ∧ r.response.status = jsNumOr (statusCodeByErrorName e.name) 500
      ∧ (∀ l ∈ r.logs, l.detail = .errObj r.finalError
            ∨ l.detail = .msg (serializeError r.finalError)) := by
  refine ⟨_, errorHandler_ok_of_not_unauthorized e lg hname, ?_, ?_, ?_, ?_⟩
  · simp [assignStatusCode, hsc, jsTruthyNum]
  · intro h
    have h2 := congrArg JsError.statusCode h
    simp [assignStatusCode, hsc, jsTruthyNum] at h2
  · cases hl : statusCodeByErrorName e.name with
    | none => simp [assignStatusCode, hsc, jsTruthyNum, jsNumOr, hl]
    | some c =>
      by_cases hc : c = 0 <;>
        simp [assignStatusCode, hsc, jsTruthyNum, jsNumOr, hl, hc]
  · intro l hl
    simp only [List.mem_cons, List.not_mem_nil, or_false] at hl
    rcases hl with h | h
    · subst h; exact Or.inl rfl
    · subst h; exact Or.inr rfl

/-- Instantiation of the mutation theorem at an unlisted error kind with no
status code: the classifier stamps 500 onto it. -/
theorem c10_statusCode_mutation_witness :
    ∃ r, errorHandler sampleWeirdErr (some sampleCtx) = .ok r
      ∧ r.finalError = { sampleWeirdErr with statusCode := some (jsNumOr (statusCodeByErrorName sampleWeirdErr.name) 500) }
      ∧ r.finalError ≠ sampleWeirdErr
      ∧ r.response.status =
          jsNumOr (statusCodeByErrorName sampleWeirdErr.name) 500
      ∧ (∀ l ∈ r.logs, l.detail = .errObj r.finalError
            ∨ l.detail = .msg (serializeError r.finalError)) :=
  c10_statusCode_mutation sampleWeirdErr sampleCtx (by decide) rfl

/-- C9: the lifecycle middleware constructs the scoped logger at ingress and
attaches it to the request; when the x-request-id header carries a (nonempty)
correlation identifier, that identifier appears in the scoped logger context
used by the ingress entry and by the registered egress hook alike; when the
header is absent, the context carries no correlation identifier and the
middleware still proceeds. -/
theorem c9_scoped_logger_correlation (now : Nat) (req : Req) (res : Res) :
    (createReqLogger now req res).1.logger = some (childLoggerCtx req.headers)
    ∧ (∀ v, headerLookup req.headers "x-request-id" = some v → v ≠ "" →
        (childLoggerCtx req.headers).requestId = some v)
    ∧ (headerLookup req.headers "x-request-id" = none →
        (childLoggerCtx req.headers).requestId = none)
    ∧ (ingressEntry req).ctx = childLoggerCtx req.headers
    ∧ (createReqLogger now req res).2.1.hooks =
        res.hooks ++ [ { ctx := childLoggerCtx req.headers
                         httpVersion := req.httpVersion
                         method := req.method, url := req.url
                         startTime := now } ]
    ∧ (createReqLogger now req res).2.2 = [ingressEntry req] := by
  refine ⟨rfl, ?_, ?_, rfl, rfl, rfl⟩
  · intro v hv hne
    simp [childLoggerCtx, jsTruthyStr, hv, hne]
  · intro hv
    simp [childLoggerCtx, jsTruthyStr, hv]

/-- Instantiation of the scoped-logger theorem at a request carrying the
x-request-id header with value abc-123. -/
theorem c9_scoped_logger_correlation_witness :
    (createReqLogger 7 { sampleReq with headers := [("x-request-id", "abc-123")] } initialRes).1.logger =
      some (childLoggerCtx [("x-request-id", "abc-123")])
    ∧ (childLoggerCtx [("x-request-id", "abc-123")]).requestId = some "abc-123" :=
  ⟨(c9_scoped_logger_correlation 7
      { sampleReq with headers := [("x-request-id", "abc-123")] } initialRes).1,
   (c9_scoped_logger_correlation 7
      { sampleReq with headers := [("x-request-id", "abc-123")] } initialRes).2.1
      "abc-123" (by decide) (by decide)⟩

/-- C5: every request trace contains exactly one structured ingress entry
and exactly one structured egress entry, the ingress strictly before the
egress, whether the request succeeds, fails through the classifier (on
either of its branches), or the client disconnects; the egress entry fires
neither zero times nor twice. -/
theorem c5_ingress_egress_exactly_once (now finish : Nat) (req : Req)
    (outcome : Outcome) :
    (runRequest now finish req outcome).countP isIngressEvt = 1
    ∧ (runRequest now finish req outcome).countP isEgressEvt = 1
    ∧ (runRequest now finish req outcome).findIdx isIngressEvt
        < (runRequest now finish req outcome).findIdx isEgressEvt := by
  cases outcome with
  | success s b =>
    simp [runRequest, createReqLogger, initialRes, ingressEntry, egressEntry,
          isIngressEvt, isEgressEvt, List.countP_cons, List.countP_append,
          List.findIdx_cons]
  | disconnect =>
    simp [runRequest, createReqLogger, initialRes, ingressEntry, egressEntry,
          isIngressEvt, isEgressEvt, List.countP_cons, List.countP_append,
          List.findIdx_cons]
  | failure e =>
    by_cases hu : e.name = some "UnauthorizedError" <;>
      simp [runRequest, createReqLogger, initialRes, ingressEntry, egressEntry,
            errorHandler, hu, isIngressEvt, isEgressEvt, List.countP_cons,
            List.countP_append, List.findIdx_cons]

/-- C7 counterexample: a request failing with the authorization-failure
error produces one client response but zero error-path log records - the
401 branch returns before any logger call - so the claim that every error
path, the authorization-failure path included, produces exactly one logged
record is false on this input. -/
theorem c7_counterexample_unauthorized_not_logged :
    (runRequest 0 5 sampleReq (.failure sampleUnauthorizedErr)).countP isErrorLogEvt = 0
    ∧ ¬((runRequest 0 5 sampleReq (.failure sampleUnauthorizedErr)).countP isErrorLogEvt = 1)
    ∧ (runRequest 0 5 sampleReq (.failure sampleUnauthorizedErr)).countP isResponseEvt = 1 := by
  decide

/-- C7 amended: every failed request produces exactly one client response;
a non-authorization error additionally produces exactly one error-severity
log record, while the authorization-failure path responds without any
error-path log record (the lifecycle egress entry still fires, per the
ingress/egress theorem). -/
theorem c7_one_response_logging_by_branch (now finish : Nat) (req : Req)
    (e : JsError) :
    (runRequest now finish req (.failure e)).countP isResponseEvt = 1
    ∧ (e.name ≠ some "UnauthorizedError" →
        (runRequest now finish req (.failure e)).countP isErrorLogEvt = 1)
    ∧ (e.name = some "UnauthorizedError" →
        (runRequest now finish req (.failure e)).countP isErrorLogEvt = 0) := by
  by_cases hu : e.name = some "UnauthorizedError" <;>
    simp [runRequest, createReqLogger, initialRes, ingressEntry, egressEntry,
          errorHandler, hu, isErrorLogEvt, isResponseEvt, List.countP_cons,
          List.countP_append]

/-- Instantiation of the amended error-path theorem at a concrete
validation failure: one response and one error-severity record. -/
theorem c7_one_response_logging_by_branch_witness :
    (runRequest 0 5 sampleReq (.failure sampleValidationErr)).countP isResponseEvt = 1
    ∧ (runRequest 0 5 sampleReq (.failure sampleValidationErr)).countP isErrorLogEvt = 1 :=
  ⟨(c7_one_response_logging_by_branch 0 5 sampleReq sampleValidationErr).1,
   (c7_one_response_logging_by_branch 0 5 sampleReq sampleValidationErr).2.1
     (by decide)⟩

end FindingApi
